import Mathlib

/-!
Verification of the filtering-and-aggregation pipeline of the flight-booking
dashboard (`app.py`). The pandas data frames are embedded shallowly as lists of
booking records; each pipeline step of the source (filtering, the ticketed
subset, numeric normalization, group-by/aggregate/sort/head, price binning) is
translated to an executable Lean definition and the spec's claims are settled
against those definitions.
-/

namespace FlightDashboard

/-- Booking record after the Normalizer (app.py lines 26-44): rows with an
unparseable `Date` have been dropped, `Year`/`Month`/`Month_Name` are derived
from the date, `Total Price` and `Commission` are nullable numerics, and
`No Passengers` is a machine integer (`fillna(0).astype(int)`).
`ticketNumbers` keeps the raw cell, `none` modelling a missing (NaN) cell. -/
structure Row where
  year : Int
  month : Nat
  monthName : String
  ticketNumbers : Option String
  totalPrice : Option ℚ
  commission : Option ℚ
  noPassengers : Int
  paymentMethod : String
  fromAp : String
  toAp : String
  airport : String
  flightType : String
deriving DecidableEq, Repr

/-- Python `str()` of a possibly missing cell, as in
`filtered_df["Ticket Numbers"].astype(str)` (app.py line 89): a missing value
is a float NaN and stringifies to `"nan"`. -/
def cellStr : Option String → String
  | none => "nan"
  | some s => s

/-- Python `str.lower()` character-wise, as applied by `.str.lower()`
(app.py line 89); the relevant strings are ASCII. -/
def strLower (s : String) : String := String.mk (s.data.map Char.toLower)

/-- Ticketed subset (app.py lines 88-92): keep rows whose stringified
`Ticket Numbers` does not lower-case to `"no tickets"`, then drop rows with a
missing `Total Price` or `Commission` (`dropna(subset=[...])`). -/
def ticketed_df (filtered : List Row) : List Row :=
  (filtered.filter
      (fun r => decide (strLower (cellStr r.ticketNumbers) ≠ "no tickets"))).filter
    (fun r => r.totalPrice.isSome && r.commission.isSome)

/-- Year/month filter (app.py lines 67-73): each facet's filter step runs only
when its selection list is non-empty (Python truthiness of the list). -/
def filtered_df (base : List Row) (selected_years : List Int)
    (selected_months : List String) : List Row :=
  let afterYears :=
    if selected_years = [] then base
    else base.filter (fun r => decide (r.year ∈ selected_years))
  if selected_months = [] then afterYears
  else afterYears.filter (fun r => decide (r.monthName ∈ selected_months))

/-- C1: the ticketed subset contains exactly the filtered rows whose
`Ticket Numbers` does not case-insensitively equal "no tickets" and whose
`Total Price` and `Commission` are both non-null; hence its row count is at
most the filtered table's row count. -/
theorem C1_ticketed_subset_spec (filtered : List Row) :
    (∀ r : Row, r ∈ ticketed_df filtered ↔
      r ∈ filtered ∧ strLower (cellStr r.ticketNumbers) ≠ "no tickets" ∧
        r.totalPrice.isSome ∧ r.commission.isSome) ∧
    (ticketed_df filtered).length ≤ filtered.length := by
  constructor
  · intro r
    simp only [ticketed_df, List.mem_filter, Bool.and_eq_true, decide_eq_true_eq, ne_eq]
    tauto
  · exact le_trans (List.length_filter_le _ _) (List.length_filter_le _ _)

/-- C2: with both selections empty the filter returns the base table
unchanged; in general a row survives the filter exactly when each non-empty
facet selection contains the row's value (an empty selection imposes no
restriction on its facet). -/
theorem C2_filter_pass_through :
    (∀ base : List Row, filtered_df base [] [] = base) ∧
    (∀ (base : List Row) (ys : List Int) (ms : List String) (r : Row),
      r ∈ filtered_df base ys ms ↔
        r ∈ base ∧ (ys = [] ∨ r.year ∈ ys) ∧ (ms = [] ∨ r.monthName ∈ ms)) := by
  constructor
  · intro base; simp [filtered_df]
  · intro base ys ms r
    by_cases hy : ys = [] <;> by_cases hm : ms = [] <;>
      simp only [filtered_df, hy, hm, if_true, if_false, ite_true, ite_false,
        List.mem_filter, decide_eq_true_eq, false_or, not_false_eq_true,
        if_neg, eq_self_iff_true, true_or] <;>
      tauto

/-- Mean of a list of rationals; pandas `Series.mean()` of an empty series is
NaN, modelled as `none`. -/
def meanQ (l : List ℚ) : Option ℚ :=
  if l.length = 0 then none else some (l.sum / l.length)

/-- Fixed price-range labels of app.py line 206, in bin order. -/
def labels : List String :=
  ["0–5K", "5K–10K", "10K–15K", "15K–20K", "20K–30K", "30K–40K", "40K–60K",
   "60K–100K", "100K+"]

/-- Bin assignment of `pd.cut(price, bins=[0,5000,...,inf], labels, right=False)`
(app.py lines 205-207): lower-inclusive, upper-exclusive intervals. A price
below the first edge 0 lies outside every bin and becomes NaN (`none`). -/
def bin_label (p : ℚ) : Option String :=
  if p < 0 then none
  else if p < 5000 then some "0–5K"
  else if p < 10000 then some "5K–10K"
  else if p < 15000 then some "10K–15K"
  else if p < 20000 then some "15K–20K"
  else if p < 30000 then some "20K–30K"
  else if p < 40000 then some "30K–40K"
  else if p < 60000 then some "40K–60K"
  else if p < 100000 then some "60K–100K"
  else some "100K+"

/-- Bin cell of a row (`price_df["Fixed Price Range"]`): a missing price has no
bin, since `pd.cut` maps NaN to NaN. -/
def bin_of_row (r : Row) : Option String := r.totalPrice.bind bin_label

/-- One output row of `range_counts` (app.py lines 209-217). -/
structure RangeBinRow where
  label : String
  Ticket_Count : Nat
  Total_Commission : ℚ
  Avg_Ticket_Price : Option ℚ
deriving DecidableEq, Repr

/-- Aggregation `range_counts` (app.py lines 209-217): group the binned ticketed
subset by the categorical bin column. Pandas groupby over a categorical key
emits one row per category in category order, and rows whose bin is NaN are
dropped from every group; per bin it counts the bin column and aggregates the
commission sum and the mean price. -/
def range_counts (t : List Row) : List RangeBinRow :=
  labels.map (fun l =>
    let grp := t.filter (fun r => decide (bin_of_row r = some l))
    { label := l
      Ticket_Count := grp.length
      Total_Commission := (grp.filterMap (fun r => r.commission)).sum
      Avg_Ticket_Price := meanQ (grp.filterMap (fun r => r.totalPrice)) })

/-- Ticket counts of the bin rows, as a bare vector of naturals. -/
def range_count_vec (t : List Row) : List Nat :=
  labels.map (fun l => (t.filter (fun r => decide (bin_of_row r = some l))).length)

theorem range_counts_map_count (t : List Row) :
    (range_counts t).map RangeBinRow.Ticket_Count = range_count_vec t := by
  simp [range_counts, range_count_vec, List.map_map]

theorem sum_map_add_nat {α : Type} (L : List α) (f g : α → Nat) :
    (L.map (fun a => f a + g a)).sum = (L.map f).sum + (L.map g).sum := by
  induction L with
  | nil => rfl
  | cons a L ih =>
    simp only [List.map_cons, List.sum_cons, ih]
    omega

theorem indicator_sum_zero (c : String) (L : List String) (h : c ∉ L) :
    (L.map (fun l => if c = l then (1 : Nat) else 0)).sum = 0 := by
  induction L with
  | nil => rfl
  | cons a L ih =>
    have hca : c ≠ a := fun e => h (e ▸ List.mem_cons_self a L)
    simp only [List.map_cons, List.sum_cons, hca, if_false,
      ih (fun hm => h (List.mem_cons_of_mem a hm)), Nat.zero_add]

theorem indicator_sum_one (c : String) (L : List String) (hn : L.Nodup)
    (h : c ∈ L) :
    (L.map (fun l => if c = l then (1 : Nat) else 0)).sum = 1 := by
  induction L with
  | nil => simp at h
  | cons a L ih =>
    rcases List.mem_cons.mp h with rfl | hmem
    · have hnot : c ∉ L := (List.nodup_cons.mp hn).1
      simp [indicator_sum_zero c L hnot]
    · have hne : c ≠ a := fun e => (List.nodup_cons.mp hn).1 (e ▸ hmem)
      simp only [List.map_cons, List.sum_cons, hne, if_false,
        ih (List.nodup_cons.mp hn).2 hmem, Nat.zero_add]

theorem bin_label_total (p : ℚ) (hp : 0 ≤ p) :
    ∃ c, bin_label p = some c ∧ c ∈ labels := by
  unfold bin_label
  split_ifs with h1 h2 h3 h4 h5 h6 h7 h8 h9
  · exact absurd h1 (not_lt.mpr hp)
  all_goals exact ⟨_, rfl, by decide⟩

theorem range_count_vec_sum (t : List Row)
    (h : ∀ r ∈ t, ∃ p, r.totalPrice = some p ∧ 0 ≤ p) :
    (range_count_vec t).sum = t.length := by
  induction t with
  | nil => rfl
  | cons r rest ih =>
    obtain ⟨p, hp, hp0⟩ := h r (by simp)
    obtain ⟨c, hc, hcl⟩ := bin_label_total p hp0
    have hbin : bin_of_row r = some c := by simp [bin_of_row, hp, hc]
    have hrest := ih (fun x hx => h x (by simp [hx]))
    have hsplit : range_count_vec (r :: rest) =
        labels.map (fun l => (if bin_of_row r = some l then 1 else 0) +
          (rest.filter (fun x => decide (bin_of_row x = some l))).length) := by
      unfold range_count_vec
      apply List.map_congr_left
      intro l _
      by_cases hb : bin_of_row r = some l <;>
        (simp [List.filter_cons, hb]; try omega)
    have hcnt :
        (labels.map (fun l =>
          (rest.filter (fun x => decide (bin_of_row x = some l))).length)).sum
          = (range_count_vec rest).sum := rfl
    rw [hsplit, sum_map_add_nat]
    simp only [hbin, Option.some.injEq]
    rw [indicator_sum_one c labels (by decide) hcl, hcnt, hrest]
    simp [Nat.add_comm]

/-- C3 (amended): whenever every row of the ticketed subset has a non-null,
non-negative `Total Price`, the fixed lower-inclusive upper-exclusive bins
partition the subset and the bin counts sum exactly to its row count; a price
exactly on a boundary falls into the bin where it is the lower bound
(5000 lands in "5K–10K", 0 lands in "0–5K"). A negative price falls below the
lowest edge and is dropped, so the unrestricted claim fails. -/
theorem C3_price_bins_partition (t : List Row)
    (h : ∀ r ∈ t, ∃ p, r.totalPrice = some p ∧ 0 ≤ p) :
    ((range_counts t).map RangeBinRow.Ticket_Count).sum = t.length ∧
    bin_label 5000 = some "5K–10K" ∧ bin_label 0 = some "0–5K" := by
  refine ⟨?_, by norm_num [bin_label], by norm_num [bin_label]⟩
  rw [range_counts_map_count]
  exact range_count_vec_sum t h

/-- Sample ticketed row with an in-range price. -/
def rowA : Row :=
  { year := 2024, month := 1, monthName := "January",
    ticketNumbers := some "ABC123", totalPrice := some 4000,
    commission := some 200, noPassengers := 2, paymentMethod := "Cash",
    fromAp := "A", toAp := "B", airport := "X", flightType := "Domestic" }

/-- Witness for C3 on a concrete one-row ticketed subset. -/
theorem C3_price_bins_partition_witness :
    ((range_counts [rowA]).map RangeBinRow.Ticket_Count).sum = 1 ∧
    bin_label 5000 = some "5K–10K" ∧ bin_label 0 = some "0–5K" := by
  have h := C3_price_bins_partition [rowA]
    (fun r hr => by
      rw [List.mem_singleton] at hr
      exact ⟨4000, by rw [hr]; rfl, by norm_num⟩)
  simpa using h

/-- Sample ticketed row whose `Total Price` is negative. -/
def rowNeg : Row := { rowA with totalPrice := some (-1) }

/-- Counterexample to C3 as stated: a ticketed row with a negative
`Total Price` lies below the lowest bin edge, `pd.cut` maps it to NaN and the
groupby drops it, so the bin counts sum to 0 while the subset has 1 row. -/
theorem C3_counterexample :
    ¬ ((range_counts [rowNeg]).map RangeBinRow.Ticket_Count).sum
        = ([rowNeg] : List Row).length := by
  decide

/-- Raw spreadsheet cell before numeric normalization: a missing cell, a text
cell, or a numeric cell (openpyxl already types cells). -/
inductive RawCell where
  | null : RawCell
  | str : String → RawCell
  | num : ℚ → RawCell
deriving DecidableEq, Repr

/-- Null-sentinel strings replaced by `pd.NA` (app.py line 39). -/
def sentinels : List String := ["NaN", "nan", "NAN", "Null", "NULL", "", " "]

/-- Sentinel replacement step `df[col].replace([...], pd.NA)` (app.py line 39):
only text cells equal to a sentinel are replaced. -/
def replace_sentinels : RawCell → RawCell
  | .str s => if s ∈ sentinels then .null else .str s
  | c => c

/-- Digit-string accumulator: `some` of the value when every character is a
decimal digit, else `none`. -/
def digitsVal (cs : List Char) : Option Nat :=
  cs.foldl
    (fun acc c => acc.bind (fun n =>
      if c.isDigit then some (10 * n + (c.toNat - 48)) else none))
    (some 0)

/-- Split a character list at the first dot: the part before it and, when a dot
occurs, the whole remainder after it. -/
def splitOnDot : List Char → List Char × Option (List Char)
  | [] => ([], none)
  | c :: cs =>
      if c = '.' then ([], some cs)
      else
        let r := splitOnDot cs
        (c :: r.1, r.2)

/-- Unsigned decimal literal: digits with an optional fractional part (a second
dot makes `digitsVal` fail, so it coerces to null). -/
def parse_unsigned (cs : List Char) : Option ℚ :=
  match splitOnDot cs with
  | (ip, none) =>
      if ip = [] then none else (digitsVal ip).map (fun n => (n : ℚ))
  | (ip, some fp) =>
      if ip = [] && fp = [] then none
      else
        match digitsVal ip, digitsVal fp with
        | some a, some b => some ((a : ℚ) + b / (10 : ℚ) ^ fp.length)
        | _, _ => none

/-- Value of a float64 cell after `pd.to_numeric`: a finite value or a signed
infinity (infinities arise from text such as "inf"; NaN is the null case of
the surrounding Option). -/
inductive NumVal where
  | fin : ℚ → NumVal
  | pinf : NumVal
  | ninf : NumVal
deriving DecidableEq, Repr

/-- Negation of a float value, for a leading minus sign. -/
def NumVal.neg : NumVal → NumVal
  | .fin q => .fin (-q)
  | .pinf => .ninf
  | .ninf => .pinf

/-- Unsigned numeric text as accepted by `pd.to_numeric`: the spellings "inf"
and "infinity" (case-insensitive) parse to positive infinity, otherwise an
unsigned decimal literal parses to its finite value. -/
def parse_unsigned_num (cs : List Char) : Option NumVal :=
  if cs.map Char.toLower = "inf".data ∨ cs.map Char.toLower = "infinity".data
  then some NumVal.pinf
  else (parse_unsigned cs).map NumVal.fin

/-- Numeric-literal parsing of `pd.to_numeric(errors="coerce")` on text cells,
modelled for plain signed decimal literals (optional sign, digits, optional
fractional part) and the infinity spellings; any other text coerces to null. -/
def parse_decimal (s : String) : Option NumVal :=
  match s.data with
  | [] => none
  | c :: cs =>
      if c = '-' then (parse_unsigned_num cs).map NumVal.neg
      else if c = '+' then parse_unsigned_num cs
      else parse_unsigned_num (c :: cs)

/-- Coercion step `pd.to_numeric(df[col], errors="coerce")` (app.py line 40):
nulls stay null, numbers pass through, text is parsed or coerced to null. -/
def to_numeric : RawCell → Option NumVal
  | .null => none
  | .num q => some (.fin q)
  | .str s => parse_decimal s

/-- Toward-zero truncation of a rational, the rounding of a float-to-integer
cast. -/
def trunc_to_int (q : ℚ) : Int := if 0 ≤ q then ⌊q⌋ else ⌈q⌉

/-- Cast of a finite float64 to numpy int64 as `astype(int)` executes it on
x86: truncate toward zero; a truncated value outside the int64 range comes out
as the cvttsd2si sentinel INT64_MIN = -2^63. -/
def cast_to_int64 (q : ℚ) : Int :=
  if -(2 ^ 63) ≤ trunc_to_int q ∧ trunc_to_int q < 2 ^ 63 then trunc_to_int q
  else -(2 ^ 63)

/-- Normalization of one `No Passengers` cell (app.py lines 36-44): sentinel
replacement, numeric coercion, `fillna(0)` (which replaces only NaN/null, not
infinities), then `astype(int)`, which raises ValueError on a non-finite value
and otherwise casts to int64. -/
def normalize_no_passengers (c : RawCell) : Except String Int :=
  match (to_numeric (replace_sentinels c)).getD (NumVal.fin 0) with
  | .fin q => .ok (cast_to_int64 q)
  | .pinf => .error "Cannot convert non-finite values (NA or inf) to integer"
  | .ninf => .error "Cannot convert non-finite values (NA or inf) to integer"

instance {ε α : Type} [DecidableEq ε] [DecidableEq α] : DecidableEq (Except ε α)
  | .ok a, .ok b =>
      if h : a = b then isTrue (h ▸ rfl)
      else isFalse (fun e => h (by cases e; rfl))
  | .ok _, .error _ => isFalse (fun h => Except.noConfusion h)
  | .error _, .ok _ => isFalse (fun h => Except.noConfusion h)
  | .error a, .error b =>
      if h : a = b then isTrue (h ▸ rfl)
      else isFalse (fun e => h (by cases e; rfl))

/-- C4 (amended): after normalization `No Passengers` is never null — null,
blank and sentinel cells become the integer 0 — and for a finite raw value the
int64 cast truncates toward zero, so the result is a non-negative integer
whenever the raw value lies in [0, 2^63). Outside that range the claim fails
three ways: a raw negative number stays negative, a non-negative value of at
least 2^63 wraps to INT64_MIN = -2^63 (negative), and a cell parsing to
infinity makes `astype(int)` raise ValueError instead of producing a value. -/
theorem C4_no_passengers_normalization :
    normalize_no_passengers RawCell.null = Except.ok 0 ∧
    (∀ s ∈ sentinels, normalize_no_passengers (RawCell.str s) = Except.ok 0) ∧
    (∀ q : ℚ, 0 ≤ q → q < 2 ^ 63 →
      ∃ n : Int, normalize_no_passengers (RawCell.num q) = Except.ok n ∧
        0 ≤ n) ∧
    (∀ q : ℚ, (2 ^ 63 : ℚ) ≤ q →
      normalize_no_passengers (RawCell.num q) = Except.ok (-(2 ^ 63))) ∧
    normalize_no_passengers (RawCell.str "inf")
        = Except.error "Cannot convert non-finite values (NA or inf) to integer" := by
  refine ⟨rfl, by decide, ?_, ?_, by decide⟩
  · intro q h0 hlt
    have hfl : 0 ≤ ⌊q⌋ := Int.floor_nonneg.mpr h0
    have hup : ⌊q⌋ < 2 ^ 63 := by
      rw [Int.floor_lt]
      push_cast
      exact hlt
    refine ⟨⌊q⌋, ?_, hfl⟩
    simp only [normalize_no_passengers, replace_sentinels, to_numeric,
      Option.getD_some, cast_to_int64, trunc_to_int, if_pos h0]
    rw [if_pos ⟨le_trans (by norm_num) hfl, hup⟩]
  · intro q hq
    have h0 : (0 : ℚ) ≤ q := le_trans (by positivity) hq
    have hge : (2 ^ 63 : Int) ≤ ⌊q⌋ := by
      rw [Int.le_floor]
      push_cast
      exact hq
    simp only [normalize_no_passengers, replace_sentinels, to_numeric,
      Option.getD_some, cast_to_int64, trunc_to_int, if_pos h0]
    rw [if_neg (fun h => not_lt.mpr hge h.2)]

/-- Witness for C4 at concrete cells: the sentinel "NaN" yields 0, the numeric
cell 3 a non-negative count, and the in-program value 1e19 wraps to -2^63. -/
theorem C4_no_passengers_normalization_witness :
    normalize_no_passengers (RawCell.str "NaN") = Except.ok 0 ∧
    (∃ n : Int, normalize_no_passengers (RawCell.num 3) = Except.ok n ∧
      0 ≤ n) ∧
    normalize_no_passengers (RawCell.num (10 ^ 19)) = Except.ok (-(2 ^ 63)) :=
  ⟨C4_no_passengers_normalization.2.1 "NaN" (by decide),
   C4_no_passengers_normalization.2.2.1 3 (by norm_num) (by norm_num),
   C4_no_passengers_normalization.2.2.2.1 (10 ^ 19) (by norm_num)⟩

/-- Counterexample to C4 as stated: a raw numeric cell holding -3 passes
sentinel replacement and numeric coercion unchanged, `fillna(0)` does not
fire, and `astype(int)` keeps it at -3, a negative passenger count. -/
theorem C4_counterexample :
    normalize_no_passengers (RawCell.num (-3)) = Except.ok (-3) ∧
    ¬ ((0 : Int) ≤ -3) := by
  constructor <;> decide

/-- Route column `From + " → " + To` (app.py line 114). -/
def Row.route (r : Row) : String := r.fromAp ++ " → " ++ r.toAp

/-- Lexicographic code-point comparison of character lists, the order pandas
uses on string group keys. -/
def charListLe : List Char → List Char → Bool
  | [], _ => true
  | _ :: _, [] => false
  | a :: as, b :: bs =>
      if a.toNat < b.toNat then true
      else if b.toNat < a.toNat then false
      else charListLe as bs

/-- Lexicographic order on strings via their character data. -/
def strLe (a b : String) : Prop := charListLe a.data b.data = true

instance : DecidableRel strLe :=
  fun a b => inferInstanceAs (Decidable (charListLe a.data b.data = true))

/-- Descending comparison on the metric column of an aggregated pair, the order
of `sort_values(metric, ascending=False)`. -/
def descend (a b : String × ℚ) : Prop := b.2 ≤ a.2

instance : DecidableRel descend :=
  fun a b => inferInstanceAs (Decidable (b.2 ≤ a.2))

instance : IsTotal (String × ℚ) descend := ⟨fun a b => le_total b.2 a.2⟩

instance : IsTrans (String × ℚ) descend := ⟨fun _ _ _ h1 h2 => le_trans h2 h1⟩

/-- Pandas `groupby(key)[col].sum()` with the default `sort=True`: one output
pair per distinct key, keys in ascending order, the metric summed over the
group's non-null cells (pandas sums skip NaN). -/
def groupby_sum (key : Row → String) (metric : Row → Option ℚ)
    (rows : List Row) : List (String × ℚ) :=
  (List.insertionSort strLe (rows.map key).dedup).map
    (fun k => (k, ((rows.filter (fun r => decide (key r = k))).filterMap metric).sum))

/-- Pandas `sort_values(metric, ascending=False).head(n)` after the groupby.
The source's sort kind is numpy quicksort, whose tie behaviour is unspecified;
we take the stable realization, the one most favourable to the spec's
tie-order claim. -/
def top_by_sum (n : Nat) (key : Row → String) (metric : Row → Option ℚ)
    (rows : List Row) : List (String × ℚ) :=
  (List.insertionSort descend (groupby_sum key metric rows)).take n

/-- Top 10 destinations by summed `Total Price` (app.py lines 129-135). -/
def top_dests (t : List Row) : List (String × ℚ) :=
  top_by_sum 10 (fun r => r.toAp) (fun r => r.totalPrice) t

/-- Top 15 routes by summed `Commission` (app.py lines 151-161); the row count
and order are decided by the commission sum alone, so the `Total Price` and
`No Passengers` sums that ride along are not modelled. -/
def top_routes_commission (t : List Row) : List (String × ℚ) :=
  top_by_sum 15 Row.route (fun r => r.commission) t

/-- Top 10 payment methods by summed `Commission` (app.py lines 239-245). -/
def bank_df (t : List Row) : List (String × ℚ) :=
  top_by_sum 10 (fun r => r.paymentMethod) (fun r => r.commission) t

/-- Top 10 airports by summed `Commission` (app.py lines 277-283). -/
def airport_commission (t : List Row) : List (String × ℚ) :=
  top_by_sum 10 (fun r => r.airport) (fun r => r.commission) t

/-- Top 10 airports by summed `Total Price` (app.py lines 298-304). -/
def airport_sales (t : List Row) : List (String × ℚ) :=
  top_by_sum 10 (fun r => r.airport) (fun r => r.totalPrice) t

/-- Top 15 airports by booking count (app.py lines 319-324): `value_counts`
is the per-airport group size sorted descending, i.e. the sum of 1 per row. -/
def airport_bookings (t : List Row) : List (String × ℚ) :=
  top_by_sum 15 (fun r => r.airport) (fun _ => some 1) t

theorem top_by_sum_spec (n : Nat) (key : Row → String) (metric : Row → Option ℚ)
    (rows : List Row) :
    (top_by_sum n key metric rows).length ≤ n ∧
    List.Sorted descend (top_by_sum n key metric rows) :=
  ⟨List.length_take_le n _,
   (List.sorted_insertionSort descend _).sublist (List.take_sublist n _)⟩

/-- C5 (amended): each of the six top-N aggregations returns at most N rows,
sorted descending by its stated metric. The original tie clause fails: the
groupby stage orders groups by ascending key, so tied groups appear in key
order, not in the original input row order. -/
theorem C5_topn_aggregations (t : List Row) :
    ((top_dests t).length ≤ 10 ∧ List.Sorted descend (top_dests t)) ∧
    ((top_routes_commission t).length ≤ 15 ∧
      List.Sorted descend (top_routes_commission t)) ∧
    ((bank_df t).length ≤ 10 ∧ List.Sorted descend (bank_df t)) ∧
    ((airport_commission t).length ≤ 10 ∧
      List.Sorted descend (airport_commission t)) ∧
    ((airport_sales t).length ≤ 10 ∧ List.Sorted descend (airport_sales t)) ∧
    ((airport_bookings t).length ≤ 15 ∧
      List.Sorted descend (airport_bookings t)) :=
  ⟨top_by_sum_spec 10 _ _ t, top_by_sum_spec 15 _ _ t, top_by_sum_spec 10 _ _ t,
   top_by_sum_spec 10 _ _ t, top_by_sum_spec 10 _ _ t, top_by_sum_spec 15 _ _ t⟩

/-- Index of the first occurrence of a key in the input key sequence. -/
def firstIdx (k : String) : List String → Nat
  | [] => 0
  | a :: as => if a = k then 0 else firstIdx k as + 1

/-- Tie preservation asserted by the spec: among output rows with equal metric
values, the output order follows the first occurrence of each group key in the
input. -/
def preserves_tie_order (inputKeys : List String) (out : List (String × ℚ)) :
    Prop :=
  out.Pairwise (fun a b => a.2 = b.2 →
    firstIdx a.1 inputKeys ≤ firstIdx b.1 inputKeys)

/-- Booking for destination "B", price 5. -/
def tieRowB : Row := { rowA with toAp := "B", totalPrice := some 5 }

/-- Booking for destination "A", price 5, appearing after the "B" booking. -/
def tieRowA : Row := { rowA with toAp := "A", totalPrice := some 5 }

/-- Counterexample to C5 as stated: two destinations tie at total price 5, the
input lists "B" before "A", yet `top_dests` emits "A" first, because the
groupby step has already ordered the groups by ascending key. -/
theorem C5_counterexample :
    ¬ preserves_tie_order ([tieRowB, tieRowA].map (fun r => r.toAp))
        (top_dests [tieRowB, tieRowA]) := by
  have hBA : (("B" : String) = "A") = False := by simp
  have hAB : (("A" : String) = "B") = False := by simp
  have h : top_dests [tieRowB, tieRowA] = [("A", 5), ("B", 5)] := by
    norm_num [top_dests, top_by_sum, groupby_sum, tieRowB, tieRowA, rowA,
      strLe, charListLe, descend, List.insertionSort, List.orderedInsert,
      List.filter_cons, List.filterMap_cons, hBA, hAB]
  rw [h]
  simp [preserves_tie_order, tieRowB, tieRowA, rowA, firstIdx, hBA, hAB]

/-- Required input columns (spec section 6; also the guidance message at
app.py lines 343-345). -/
def required_cols : List String :=
  ["Date", "Ticket Numbers", "Payment Method", "From", "To", "Airport", "Type",
   "Total Price", "Commission", "No Passengers"]

/-- Column accesses of the script in source order, each unguarded by a
presence check: `Date` (line 27), `Ticket Numbers` (89), `Total Price` and
`Commission` (92), `No Passengers` (100), `From` and `To` (114), `Type` (121),
`Payment Method` (240), `Airport` (278). Only the numeric-coercion loop
(lines 37-44) guards its columns with `if col in df.columns`, so it performs
no unguarded access. -/
def access_order : List String :=
  ["Date", "Ticket Numbers", "Total Price", "Commission", "No Passengers",
   "From", "To", "Type", "Payment Method", "Airport"]

/-- Column-presence model of the script body (app.py lines 26-336): the first
unguarded access of a missing column raises a KeyError naming that column,
which nothing catches, so the script aborts there. -/
def pipeline_access (cols : List String) : Except String Unit :=
  match access_order.find? (fun c => decide (c ∉ cols)) with
  | some c => .error c
  | none => .ok ()

/-- C6 (amended): the script body completes exactly when every required column
is present; with any required column missing, its first unguarded access
raises an uncaught KeyError naming it and the whole pipeline aborts — only the
numeric-coercion loop degrades gracefully. -/
theorem C6_missing_columns_abort :
    (∀ cols : List String, pipeline_access cols = Except.ok () ↔
      ∀ c ∈ required_cols, c ∈ cols) ∧
    (∀ c ∈ required_cols,
      pipeline_access (required_cols.erase c) = Except.error c) := by
  have h1 : ∀ c ∈ required_cols, c ∈ access_order := by decide
  have h2 : ∀ c ∈ access_order, c ∈ required_cols := by decide
  constructor
  · intro cols
    have key : pipeline_access cols = Except.ok () ↔
        access_order.find? (fun c => decide (c ∉ cols)) = none := by
      unfold pipeline_access
      rcases access_order.find? (fun c => decide (c ∉ cols)) with _ | c <;> simp
    rw [key, List.find?_eq_none]
    constructor
    · intro h c hc
      simpa using h c (h1 c hc)
    · intro h c hc
      simpa using h c (h2 c hc)
  · decide

/-- Witness for C6: with all columns present the script completes; with `Date`
removed it aborts with the KeyError for `Date`. -/
theorem C6_missing_columns_abort_witness :
    pipeline_access required_cols = Except.ok () ∧
    pipeline_access (required_cols.erase "Date") = Except.error "Date" :=
  ⟨(C6_missing_columns_abort.1 required_cols).mpr (fun _ hc => hc),
   C6_missing_columns_abort.2 "Date" (by decide)⟩

/-- Counterexample to C6 as stated: with `Ticket Numbers` missing, the script
does not run to completion with only the dependent aggregations unavailable —
it aborts at the line-89 access with an uncaught KeyError. -/
theorem C6_counterexample :
    pipeline_access (required_cols.erase "Ticket Numbers")
        = Except.error "Ticket Numbers" ∧
    pipeline_access (required_cols.erase "Ticket Numbers") ≠ Except.ok () := by
  constructor <;> decide

/-- load_data (app.py lines 13-20): the remote fetch and parse runs inside
try/except; on success the parsed table is returned, on any exception an error
message is emitted and None is returned — the exception never propagates to
the caller. -/
def load_data (fetch : Except String (List Row)) :
    Option (List Row) × List String :=
  match fetch with
  | .ok t => (some t, [])
  | .error e => (none, ["❌ Failed to load Excel file: " ++ e])

/-- Top-level dispatch (app.py lines 23-25 and 338-347): with a table the
dashboard renders (title, line 95); with None the user sees the guidance
warning instead. -/
def app_main (fetch : Except String (List Row)) : List String :=
  match load_data fetch with
  | (some _, msgs) => msgs ++ ["✈️ Flight Booking Dashboard"]
  | (none, msgs) =>
      msgs ++ ["📤 Please check if the Excel file exists at the specified path."]

/-- C7: when retrieval or parsing fails for any reason, load_data returns None
together with a recoverable error message rather than letting the exception
propagate, and the app then halts gracefully showing the guidance message
instead of a dashboard. -/
theorem C7_load_failure_contained (e : String) :
    load_data (Except.error e)
        = (none, ["❌ Failed to load Excel file: " ++ e]) ∧
    app_main (Except.error e)
        = ["❌ Failed to load Excel file: " ++ e,
           "📤 Please check if the Excel file exists at the specified path."] :=
  ⟨rfl, rfl⟩

/-- Maximum of a rational list; pandas `Series.max()` of an empty series is
NaN, modelled as `none`. -/
def maxQ : List ℚ → Option ℚ
  | [] => none
  | x :: xs =>
      match maxQ xs with
      | none => some x
      | some m => some (max x m)

/-- Headline metric: total bookings, `len(filtered_df)` (app.py line 99). -/
def total_bookings (filtered : List Row) : Nat := filtered.length

/-- Headline metric: ticketed passengers, `No Passengers` summed
(app.py line 100). -/
def total_ticketed_passengers (t : List Row) : Int :=
  (t.map (fun r => r.noPassengers)).sum

/-- Headline metric: maximum ticket price (app.py line 101). -/
def max_ticket_price (t : List Row) : Option ℚ :=
  maxQ (t.filterMap (fun r => r.totalPrice))

/-- Headline metric: total commission (app.py line 105). -/
def total_commission (t : List Row) : ℚ :=
  (t.filterMap (fun r => r.commission)).sum

/-- Headline metric: total sales (app.py line 106). -/
def total_sales (t : List Row) : ℚ :=
  (t.filterMap (fun r => r.totalPrice)).sum

/-- Headline metric: average ticket price (app.py line 107). -/
def avg_ticket_price (t : List Row) : Option ℚ :=
  meanQ (t.filterMap (fun r => r.totalPrice))

/-- C8: on a zero-row filtered or ticketed subset every headline metric and
every aggregation still evaluates — sums are zero, max and mean are undefined
(`none`, pandas NaN) rather than an error, and the aggregations are empty. -/
theorem C8_empty_subset_metrics :
    ticketed_df [] = [] ∧
    total_bookings [] = 0 ∧
    total_ticketed_passengers [] = 0 ∧
    max_ticket_price [] = none ∧
    total_commission [] = 0 ∧
    total_sales [] = 0 ∧
    avg_ticket_price [] = none ∧
    top_dests [] = [] ∧
    top_routes_commission [] = [] ∧
    bank_df [] = [] ∧
    airport_commission [] = [] ∧
    airport_sales [] = [] ∧
    airport_bookings [] = [] ∧
    (range_counts []).map RangeBinRow.Ticket_Count
        = [0, 0, 0, 0, 0, 0, 0, 0, 0] :=
  ⟨rfl, rfl, rfl, rfl, rfl, rfl, rfl, rfl, rfl, rfl, rfl, rfl, rfl, rfl⟩

/-- Month number used as the sort key in
`sorted(df["Month_Name"].unique(), key=lambda x: to_datetime(x).month)`
(app.py line 59); the strftime("%B") names map to 1..12. -/
def month_index (m : String) : Nat :=
  if m = "January" then 1 else if m = "February" then 2
  else if m = "March" then 3 else if m = "April" then 4
  else if m = "May" then 5 else if m = "June" then 6
  else if m = "July" then 7 else if m = "August" then 8
  else if m = "September" then 9 else if m = "October" then 10
  else if m = "November" then 11 else if m = "December" then 12
  else 0

/-- Calendar order on month names. -/
def monthLE (a b : String) : Prop := month_index a ≤ month_index b

instance : DecidableRel monthLE :=
  fun a b => inferInstanceAs (Decidable (month_index a ≤ month_index b))

instance : IsTotal String monthLE := ⟨fun _ _ => Nat.le_total _ _⟩

instance : IsTrans String monthLE := ⟨fun _ _ _ => Nat.le_trans⟩

/-- available_months (app.py line 59): the distinct month names present,
sorted by calendar position. -/
def available_months (rows : List Row) : List String :=
  List.insertionSort monthLE (rows.map (fun r => r.monthName)).dedup

/-- C9: available_months lists each month name present in the table exactly
once, sorted by calendar order (the month number of the name), not
alphabetically. -/
theorem C9_available_months_calendar_order (rows : List Row) :
    List.Sorted monthLE (available_months rows) ∧
    (available_months rows).Nodup ∧
    (∀ m, m ∈ available_months rows ↔
      m ∈ rows.map (fun r => r.monthName)) := by
  refine ⟨List.sorted_insertionSort monthLE _, ?_, ?_⟩
  · exact ((List.perm_insertionSort monthLE _).nodup_iff).mpr (List.nodup_dedup _)
  · intro m
    unfold available_months
    rw [(List.perm_insertionSort monthLE _).mem_iff]
    exact List.mem_dedup

/-- C10: a filtered row whose `Ticket Numbers` cell is missing is kept in the
ticketed subset whenever `Total Price` and `Commission` are present: the
sentinel check stringifies the cell first, NaN becomes the string "nan", and
"nan" is not "no tickets". -/
theorem C10_null_ticket_numbers_kept (filtered : List Row) (r : Row)
    (hr : r ∈ filtered) (hnull : r.ticketNumbers = none)
    (hp : r.totalPrice.isSome) (hc : r.commission.isSome) :
    r ∈ ticketed_df filtered := by
  simp only [ticketed_df, List.mem_filter, Bool.and_eq_true, decide_eq_true_eq]
  refine ⟨⟨hr, ?_⟩, hp, hc⟩
  rw [hnull]
  decide

/-- Booking whose `Ticket Numbers` cell is missing but fully priced. -/
def nullTicketRow : Row := { rowA with ticketNumbers := none }

/-- Witness for C10 at a concrete row with a missing `Ticket Numbers` cell. -/
theorem C10_null_ticket_numbers_kept_witness :
    nullTicketRow ∈ ticketed_df [nullTicketRow] :=
  C10_null_ticket_numbers_kept [nullTicketRow] nullTicketRow (by simp)
    rfl rfl rfl

end FlightDashboard
